import Mathlib

/-!
Shallow embedding of `github-auth-provider/main.go` and of the workspace
tool manifest script from the obot-platform tools repository, together with
theorems settling the specification claims about them.

Conventions:
* Go strings are Lean `String`s; Go byte slices are `List Nat` (each < 256).
* Go `time.Duration` is an integer count of nanoseconds.
* External library calls (`env.LoadEnvForStruct`, `legacyOpts.ToOptions`,
  `validation.Validate`, `oauth2proxy.NewOAuthProxy`, the listener) are
  parameters of the `runMain` pipeline: the pipeline models exactly the
  control flow and data flow written in `main.go`, lines 34-116.
-/

namespace GithubAuthProvider

/-- The `Options` struct of `main.go` (lines 21-32), after environment
loading: `env:"..."` string fields, with `optional:"true"` pointer fields
modelled as `Option String`. -/
structure Options where
  clientID : String
  clientSecret : String
  obotServerURL : String
  authCookieSecret : String
  authEmailDomains : String
  gitHubTeams : Option String
  gitHubOrg : Option String
  gitHubRepo : Option String
  gitHubToken : Option String
  gitHubAllowUsers : Option String
deriving DecidableEq

/-- Modelled from the spec: the environment loader
`env.LoadEnvForStruct` (package `auth-providers-common/pkg/env`) is code of
this repository that is not under `src/`. Per the spec, the option
`OBOT_AUTH_PROVIDER_EMAIL_DOMAINS` carries a declared default of `"*"`
(struct tag `default:"*"` on line 26), applied when the environment
variable is unset; when the variable is set, its string value is taken
as-is. -/
def loadAuthEmailDomains (envVar : Option String) : String :=
  envVar.getD "*"

/-- `os.Getenv`: the empty string when the variable is unset. -/
def goGetEnv (envVar : Option String) : String :=
  envVar.getD ""

/-- Splitting a character list at every occurrence of a separator
character, keeping empty fields (including leading and trailing ones). -/
def splitChars (sep : Char) : List Char → List (List Char)
  | [] => [[]]
  | c :: rest =>
    if c = sep then [] :: splitChars sep rest
    else
      match splitChars sep rest with
      | [] => [[c]]
      | h :: t => (c :: h) :: t

/-- Go `strings.Split` for a single-character separator (both call sites,
lines 67 and 84, use `","`): non-overlapping splitting keeping empty
fields, so `Split("", ",") = [""]` and `Split("a,,b", ",") = ["a","","b"]`
as in Go. -/
def goSplit (s : String) (sep : Char) : List String :=
  (splitChars sep s.data).map List.asString

/-- Go `strings.HasPrefix` (line 81): the prefix test on the character
sequences of the two strings. -/
def goHasPrefix (s pre : String) : Bool :=
  List.isPrefixOf pre.data s.data

/-- Value of a character in the standard base64 alphabet
(`A-Z a-z 0-9 + /`), as in Go `encoding/base64.StdEncoding`. -/
def b64Index (c : Char) : Option Nat :=
  if 'A' ≤ c ∧ c ≤ 'Z' then some (c.toNat - 65)
  else if 'a' ≤ c ∧ c ≤ 'z' then some (c.toNat - 97 + 26)
  else if '0' ≤ c ∧ c ≤ '9' then some (c.toNat - 48 + 52)
  else if c = '+' then some 62
  else if c = '/' then some 63
  else none

/-- Decode a newline-stripped standard base64 character sequence, quantum
by quantum, as Go `base64.StdEncoding` does in non-strict mode: full
quantums of four alphabet characters yield three bytes; a final quantum may
end in `=` (two bytes) or `==` (one byte), with nothing allowed after the
padding; any other shape (stray characters, padding in the wrong place, a
length not a multiple of four) is corrupt input. Non-strict mode does not
require the unused trailing bits to be zero. -/
def decodeQuantums : List Char → Option (List Nat)
  | [] => some []
  | a :: b :: c :: d :: rest =>
    match b64Index a, b64Index b with
    | some x, some y =>
      if c = '=' then
        if d = '=' ∧ rest = [] then some [x * 4 + y / 16] else none
      else
        match b64Index c with
        | some z =>
          if d = '=' then
            if rest = [] then some [x * 4 + y / 16, (y % 16) * 16 + z / 4]
            else none
          else
            match b64Index d with
            | some w =>
              match decodeQuantums rest with
              | some bytes =>
                some ([x * 4 + y / 16, (y % 16) * 16 + z / 4,
                       (z % 4) * 64 + w] ++ bytes)
              | none => none
            | none => none
        | none => none
    | _, _ => none
  | _ => none

/-- Go `base64.StdEncoding.DecodeString` (line 41): carriage returns and
newlines are ignored, then the remaining characters are decoded in
four-character quantums; `none` models the non-nil `CorruptInputError`. -/
def decodeBase64Std (s : String) : Option (List Nat) :=
  decodeQuantums (s.data.filter (fun c => !(c = '\r' ∨ c = '\n')))

/-- The fields of the proxy library's `LegacyProvider` that `main.go`
writes (lines 47-68). -/
structure LegacyProvider where
  providerType : String
  providerName : String
  clientID : String
  clientSecret : String
  gitHubTeam : String
  gitHubOrg : String
  gitHubRepo : String
  gitHubToken : String
  gitHubUsers : List String
deriving DecidableEq

/-- Lines 47-68 of `main.go`: populate the legacy provider options from
`opts`, starting from the library's `options.NewLegacyOptions()` initial
value (`init`, a parameter since the library is external); each
`optional` field is copied only when its pointer is non-nil. -/
def buildLegacyOpts (opts : Options) (init : LegacyProvider) : LegacyProvider :=
  let l1 := { init with
    providerType := "github"
    providerName := "github"
    clientID := opts.clientID
    clientSecret := opts.clientSecret }
  let l2 := match opts.gitHubTeams with
    | some t => { l1 with gitHubTeam := t }
    | none => l1
  let l3 := match opts.gitHubOrg with
    | some o => { l2 with gitHubOrg := o }
    | none => l2
  let l4 := match opts.gitHubRepo with
    | some r => { l3 with gitHubRepo := r }
    | none => l3
  let l5 := match opts.gitHubToken with
    | some t => { l4 with gitHubToken := t }
    | none => l4
  match opts.gitHubAllowUsers with
  | some u => { l5 with gitHubUsers := goSplit u ',' }
  | none => l5

/-- The fields of the proxy library's options struct that `main.go` reads
or writes after `ToOptions` (lines 76-85). `cookieRefresh` is a Go
`time.Duration` in nanoseconds; `cookieSecret` holds the raw decoded
bytes (Go converts them back to a byte string on line 80). -/
structure ProxyOptions where
  serverBindAddress : String
  metricsServerBindAddress : String
  cookieRefresh : Int
  cookieName : String
  cookieSecret : List Nat
  cookieSecure : Bool
  rawRedirectURL : String
  emailDomains : List String
deriving DecidableEq

/-- Go `time.Hour` as a duration in nanoseconds. -/
def timeHour : Int := 3600000000000

/-- Lines 76-85 of `main.go`: the mutations applied to the proxy options
record returned by the external `legacyOpts.ToOptions()` (`base`).
`EmailDomains` is overwritten only when `opts.AuthEmailDomains` is
non-empty (lines 83-85); otherwise it keeps whatever `ToOptions`
produced. -/
def applyMainConfig (opts : Options) (secret : List Nat)
    (base : ProxyOptions) : ProxyOptions :=
  let cfg := { base with
    serverBindAddress := ""
    metricsServerBindAddress := ""
    cookieRefresh := timeHour
    cookieName := "obot_access_token"
    cookieSecret := secret
    cookieSecure := goHasPrefix opts.obotServerURL "https://"
    rawRedirectURL := opts.obotServerURL ++ "/oauth2/callback" }
  if opts.authEmailDomains ≠ "" then
    { cfg with emailDomains := goSplit opts.authEmailDomains ',' }
  else
    cfg

/-- Line 98-101 of `main.go`: the `PORT` environment value, defaulting to
`"9999"` when empty. -/
def resolvePort (portEnv : String) : String :=
  if portEnv = "" then "9999" else portEnv

/-- Outcome of the `main` function: one constructor per `os.Exit(1)` call
site during setup, or the serving state carrying the derived proxy
configuration and the resolved port. -/
inductive MainResult where
  | exitLoadFail
  | exitDecodeFail
  | exitTranslateFail
  | exitValidateFail
  | exitProxyFail
  | serving (cfg : ProxyOptions) (port : String)
deriving DecidableEq

/-- The process exit code produced by a `MainResult`: every setup failure
calls `os.Exit(1)`; reaching the serving state exits nowhere. -/
def exitCode : MainResult → Option Nat
  | .exitLoadFail => some 1
  | .exitDecodeFail => some 1
  | .exitTranslateFail => some 1
  | .exitValidateFail => some 1
  | .exitProxyFail => some 1
  | .serving _ _ => none

/-- The setup portion of `main` (lines 34-101), with the external calls as
parameters: `loadResult` is the outcome of `env.LoadEnvForStruct`
(`none` = error), `toOptions` is `legacyOpts.ToOptions` (`none` = error),
`validate` is `validation.Validate` (`true` = nil error), `newProxy` is
`oauth2proxy.NewOAuthProxy` (`true` = nil error), `init` is the library's
`NewLegacyOptions()` value and `portEnv` the `PORT` environment
variable. -/
def runMain (loadResult : Option Options)
    (toOptions : LegacyProvider → Option ProxyOptions)
    (validate : ProxyOptions → Bool) (newProxy : ProxyOptions → Bool)
    (init : LegacyProvider) (portEnv : Option String) : MainResult :=
  match loadResult with
  | none => .exitLoadFail
  | some opts =>
    match decodeBase64Std opts.authCookieSecret with
    | none => .exitDecodeFail
    | some cookieSecret =>
      match toOptions (buildLegacyOpts opts init) with
      | none => .exitTranslateFail
      | some base =>
        let cfg := applyMainConfig opts cookieSecret base
        if validate cfg then
          if newProxy cfg then
            .serving cfg (resolvePort (goGetEnv portEnv))
          else .exitProxyFail
        else .exitValidateFail

/-- The error returned by `http.ListenAndServe` (always non-nil):
`http.ErrServerClosed` signals graceful shutdown, anything else is a
listener failure. -/
inductive ServeError where
  | serverClosed
  | other (msg : String)
deriving DecidableEq

/-- Lines 112-115 of `main.go`: after the listener returns, the process
exits with status 1 unless the error is `http.ErrServerClosed`
(`errors.Is` check). -/
def afterServe : ServeError → Option Nat
  | .serverClosed => none
  | .other _ => some 1

/-- The four handlers registered on the `http.ServeMux`
(lines 103-109). -/
inductive Handler where
  | rootInfo
  | getState
  | getIconURL
  | proxy
deriving DecidableEq

/-- Dispatch of the `http.ServeMux` of lines 103-109 on a cleaned request
path: pattern `"/\x7b$\x7d"` matches exactly `/`, the two literal patterns
match their exact paths, and the prefix pattern `"/"` catches every other
path (most-specific pattern wins, independent of registration order). -/
def routeDispatch (path : String) : Handler :=
  if path = "/" then .rootInfo
  else if path = "/obot-get-state" then .getState
  else if path = "/obot-get-icon-url" then .getIconURL
  else .proxy

/-- Line 105: the body written by the root handler,
`fmt.Sprintf("http://127.0.0.1:%s", port)`. -/
def rootHandlerBody (port : String) : String :=
  "http://127.0.0.1:" ++ port

/-- Line 112: the listener bind address, `"127.0.0.1:" + port`. -/
def listenAddress (port : String) : String :=
  "127.0.0.1:" ++ port

/-- The response body this repository itself produces for a request path
once serving: the root handler's literal body; the other three handlers
delegate to external packages, so their bodies are opaque (`none`). -/
def handleBody (port : String) (path : String) : Option String :=
  match routeDispatch path with
  | .rootInfo => some (rootHandlerBody port)
  | _ => none

end GithubAuthProvider

namespace WorkspaceTools

/-- The heredoc text of the `Workspace Files` context script
(lines preceding `$FILES`), newlines included. -/
def workspaceInstructionsHead : String :=
  "# START INSTRUCTIONS: \"Workspace Files\"\n\nYou have the ability to read, write, and copy files in a workspace which is specific to your user. Use the given\nworkspace_read, workspace_write, and workspace_copy tools to interact with files. The files that you write are available for the user\nto read and write in their user interface. You can collaborate with the user by reading and writing these files.\nDo not ask first to create files in the workspace. Immediately write contents to the workspace as opposed to describing\nthe contents to the user. If the user changes a file, they will inform you that content has changed, with the new\ncontents of the file. The current files are available in the workspace for you to read if needed.\n\n"

/-- The heredoc text following `$FILES`, newlines included. -/
def workspaceInstructionsTail : String :=
  "\n# END INSTRUCTIONS: \"Workspace Files\"\n"

/-- The `Workspace Files` context script: `FILES="$GPTSCRIPT_CONTEXT"`,
replaced by the sentinel when empty (`[ -z "$FILES" ]`), substituted into
the fixed heredoc template. -/
def renderWorkspaceInstructions (gptscriptContext : String) : String :=
  let files := if gptscriptContext = "" then "No files found in workspace"
               else gptscriptContext
  workspaceInstructionsHead ++ files ++ workspaceInstructionsTail

end WorkspaceTools

open GithubAuthProvider WorkspaceTools

/-- A sample `NewLegacyOptions()` initial value for concrete evaluations. -/
def sampleInit : LegacyProvider :=
  ⟨"", "", "", "", "", "", "", "", []⟩

/-- A sample `ToOptions` result for concrete evaluations, with a non-empty
server bind address and an empty `EmailDomains` as the library default. -/
def sampleBase : ProxyOptions :=
  ⟨"0.0.0.0:4180", "", 0, "_oauth2_proxy", [], false, "", []⟩

/-- Loaded options with the given email-domain value and cookie secret,
for concrete evaluations. -/
def sampleOpts (domains secret : String) : Options :=
  ⟨"id", "sec", "https://obot.example.com", secret, domains,
   none, none, none, none, none⟩

/-- The `EmailDomains` field after the mutations of lines 76-85: overwritten
by the split of `AuthEmailDomains` when that is non-empty, kept from the
`ToOptions` result otherwise. -/
theorem emailDomains_applyMainConfig (opts : Options) (secret : List Nat)
    (base : ProxyOptions) :
    (applyMainConfig opts secret base).emailDomains =
      if opts.authEmailDomains = "" then base.emailDomains
      else goSplit opts.authEmailDomains ',' := by
  unfold applyMainConfig
  split <;> simp_all

/-- C1: the claim as stated is false: with `OBOT_AUTH_PROVIDER_EMAIL_DOMAINS`
unset the loader applies the declared default `"*"`, which is non-empty, so
the `EmailDomains` field is overwritten with `["*"]` and is not left at the
library default (here the library default `[]`). -/
theorem claim_C1_counterexample :
    loadAuthEmailDomains none = "*" ∧
    (applyMainConfig (sampleOpts (loadAuthEmailDomains none) "QUJD")
        [65, 66, 67] sampleBase).emailDomains ≠ sampleBase.emailDomains ∧
    (applyMainConfig (sampleOpts (loadAuthEmailDomains none) "QUJD")
        [65, 66, 67] sampleBase).emailDomains = ["*"] := by
  refine ⟨rfl, ?_, ?_⟩ <;> decide

/-- C1 (amended): when `OBOT_AUTH_PROVIDER_EMAIL_DOMAINS` is set to the
empty string no domain restriction list is applied (the `EmailDomains`
field keeps the `ToOptions` library default); when the variable is unset
the declared default `"*"` is loaded and the allowed-domain list becomes
exactly `["*"]`; when it is set to `"a.com,b.com"` the list is exactly
`a.com` and `b.com`. -/
theorem claim_C1 (opts : Options) (secret : List Nat) (base : ProxyOptions) :
    (opts.authEmailDomains = "" →
      (applyMainConfig opts secret base).emailDomains = base.emailDomains) ∧
    (opts.authEmailDomains = loadAuthEmailDomains none →
      (applyMainConfig opts secret base).emailDomains = ["*"]) ∧
    (opts.authEmailDomains = "a.com,b.com" →
      (applyMainConfig opts secret base).emailDomains = ["a.com", "b.com"]) := by
  refine ⟨fun h => ?_, fun h => ?_, fun h => ?_⟩
  · rw [emailDomains_applyMainConfig, h]
    simp
  · rw [emailDomains_applyMainConfig, h]
    rfl
  · rw [emailDomains_applyMainConfig, h]
    rfl

/-- C1 witness: the amended claim evaluated at the three concrete
email-domain values. -/
theorem claim_C1_witness :
    (applyMainConfig (sampleOpts "" "QUJD") [] sampleBase).emailDomains =
      sampleBase.emailDomains ∧
    (applyMainConfig (sampleOpts (loadAuthEmailDomains none) "QUJD") []
        sampleBase).emailDomains = ["*"] ∧
    (applyMainConfig (sampleOpts "a.com,b.com" "QUJD") []
        sampleBase).emailDomains = ["a.com", "b.com"] :=
  ⟨(claim_C1 (sampleOpts "" "QUJD") [] sampleBase).1 rfl,
   (claim_C1 (sampleOpts (loadAuthEmailDomains none) "QUJD") [] sampleBase).2.1 rfl,
   (claim_C1 (sampleOpts "a.com,b.com" "QUJD") [] sampleBase).2.2 rfl⟩

/-- C2: for every value of `OBOT_SERVER_URL`, the redirect URL stored in
the derived proxy configuration is that server URL with
`"/oauth2/callback"` appended (line 82). -/
theorem claim_C2 (opts : Options) (secret : List Nat) (base : ProxyOptions) :
    (applyMainConfig opts secret base).rawRedirectURL =
      opts.obotServerURL ++ "/oauth2/callback" := by
  unfold applyMainConfig
  split <;> rfl

/-- C3: the secure-cookie flag of the derived proxy configuration is true
iff `OBOT_SERVER_URL` begins with `"https://"` (line 81), stated as a
boolean equality with the prefix test. -/
theorem claim_C3 (opts : Options) (secret : List Nat) (base : ProxyOptions) :
    (applyMainConfig opts secret base).cookieSecure =
      List.isPrefixOf "https://".data opts.obotServerURL.data := by
  unfold applyMainConfig
  split <;> rfl

/-- `runMain` on a successful environment load, unfolded one step. -/
theorem runMain_some (opts : Options)
    (toOptions : LegacyProvider → Option ProxyOptions)
    (validate newProxy : ProxyOptions → Bool)
    (init : LegacyProvider) (portEnv : Option String) :
    runMain (some opts) toOptions validate newProxy init portEnv =
      match decodeBase64Std opts.authCookieSecret with
      | none => .exitDecodeFail
      | some cookieSecret =>
        match toOptions (buildLegacyOpts opts init) with
        | none => .exitTranslateFail
        | some base =>
          let cfg := applyMainConfig opts cookieSecret base
          if validate cfg then
            if newProxy cfg then
              .serving cfg (resolvePort (goGetEnv portEnv))
            else .exitProxyFail
          else .exitValidateFail := rfl

/-- C4: for every cookie-secret string, if it decodes as standard base64
then startup does not take the decode-error branch, and if it does not
decode then `main` stops at the decode step with exit code 1. -/
theorem claim_C4 (opts : Options)
    (toOptions : LegacyProvider → Option ProxyOptions)
    (validate newProxy : ProxyOptions → Bool)
    (init : LegacyProvider) (portEnv : Option String) :
    ((decodeBase64Std opts.authCookieSecret).isSome = true →
      runMain (some opts) toOptions validate newProxy init portEnv ≠
        MainResult.exitDecodeFail) ∧
    (decodeBase64Std opts.authCookieSecret = none →
      runMain (some opts) toOptions validate newProxy init portEnv =
        MainResult.exitDecodeFail ∧
      exitCode (runMain (some opts) toOptions validate newProxy init portEnv) =
        some 1) := by
  constructor
  · intro h
    rw [runMain_some]
    cases hdec : decodeBase64Std opts.authCookieSecret with
    | none => rw [hdec] at h; simp at h
    | some s =>
      cases hto : toOptions (buildLegacyOpts opts init) with
      | none => simp
      | some base =>
        dsimp only
        split <;> [split <;> simp; simp]
  · intro h
    rw [runMain_some, h]
    exact ⟨rfl, rfl⟩

/-- C4 witness: `"QUJD"` is valid base64 so the decode branch is not
taken; `"!"` is invalid so `main` exits at the decode step with code 1. -/
theorem claim_C4_witness :
    runMain (some (sampleOpts "*" "QUJD")) (fun _ => some sampleBase)
        (fun _ => true) (fun _ => true) sampleInit none ≠
      MainResult.exitDecodeFail ∧
    runMain (some (sampleOpts "*" "!")) (fun _ => some sampleBase)
        (fun _ => true) (fun _ => true) sampleInit none =
      MainResult.exitDecodeFail ∧
    exitCode (runMain (some (sampleOpts "*" "!")) (fun _ => some sampleBase)
        (fun _ => true) (fun _ => true) sampleInit none) = some 1 := by
  have h2 := (claim_C4 (sampleOpts "*" "!") (fun _ => some sampleBase)
    (fun _ => true) (fun _ => true) sampleInit none).2 (by decide)
  exact ⟨(claim_C4 (sampleOpts "*" "QUJD") (fun _ => some sampleBase)
    (fun _ => true) (fun _ => true) sampleInit none).1 (by decide), h2.1, h2.2⟩

/-- C5: the mux sends the exact path `/` to the local-base-URL handler
(not the proxy), the two `obot-` paths to their dedicated handlers, and
every other path to the proxy's request handler. -/
theorem claim_C5 :
    routeDispatch "/" = Handler.rootInfo ∧
    routeDispatch "/obot-get-state" = Handler.getState ∧
    routeDispatch "/obot-get-icon-url" = Handler.getIconURL ∧
    ∀ p : String, p ≠ "/" → p ≠ "/obot-get-state" →
      p ≠ "/obot-get-icon-url" → routeDispatch p = Handler.proxy := by
  refine ⟨rfl, rfl, rfl, ?_⟩
  intro p h1 h2 h3
  unfold routeDispatch
  rw [if_neg h1, if_neg h2, if_neg h3]

/-- C5 witness: the OAuth2 callback path is forwarded to the proxy. -/
theorem claim_C5_witness : routeDispatch "/oauth2/callback" = Handler.proxy :=
  claim_C5.2.2.2 "/oauth2/callback" (by decide) (by decide) (by decide)

/-- C6: whenever `main` reaches the serving state, whatever the server URL
and its scheme, a request for the exact path `/` is answered with the body
`http://127.0.0.1:<port>` for the configured (or default) port. -/
theorem claim_C6 (loadResult : Option Options)
    (toOptions : LegacyProvider → Option ProxyOptions)
    (validate newProxy : ProxyOptions → Bool)
    (init : LegacyProvider) (portEnv : Option String)
    (cfg : ProxyOptions) (p : String)
    (h : runMain loadResult toOptions validate newProxy init portEnv =
      MainResult.serving cfg p) :
    handleBody p "/" =
      some ("http://127.0.0.1:" ++ resolvePort (goGetEnv portEnv)) := by
  have hp : p = resolvePort (goGetEnv portEnv) := by
    cases loadResult with
    | none => simp [runMain] at h
    | some opts =>
      rw [runMain_some] at h
      cases hdec : decodeBase64Std opts.authCookieSecret <;> rw [hdec] at h
      · simp at h
      · cases hto : toOptions (buildLegacyOpts opts init) <;> rw [hto] at h
        · simp at h
        · dsimp only at h
          split at h
          · split at h
            · exact (MainResult.serving.injEq .. ▸ h).2.symm
            · simp at h
          · simp at h
  subst hp
  rfl

/-- C6 witness: a concrete successful startup with `PORT` unset serves
`http://127.0.0.1:9999` on the root path. -/
theorem claim_C6_witness :
    handleBody "9999" "/" =
      some ("http://127.0.0.1:" ++ resolvePort (goGetEnv none)) :=
  claim_C6 (some (sampleOpts "*" "QUJD")) (fun _ => some sampleBase)
    (fun _ => true) (fun _ => true) sampleInit none
    (applyMainConfig (sampleOpts "*" "QUJD") [65, 66, 67] sampleBase)
    "9999" (by decide)

/-- C7: with `PORT` unset the resolved port is `"9999"`, the listener
binds `127.0.0.1:9999`, and the root handler reports
`http://127.0.0.1:9999`. -/
theorem claim_C7 :
    resolvePort (goGetEnv none) = "9999" ∧
    listenAddress (resolvePort (goGetEnv none)) = "127.0.0.1:9999" ∧
    rootHandlerBody (resolvePort (goGetEnv none)) = "http://127.0.0.1:9999" :=
  ⟨rfl, rfl, rfl⟩

/-- C8: every setup outcome other than the serving state carries exit
code 1; once serving, a listener error exits with code 1 exactly when it
is not the graceful-shutdown error `http.ErrServerClosed`. -/
theorem claim_C8 :
    (∀ r : MainResult,
      (∀ cfg p, r ≠ MainResult.serving cfg p) → exitCode r = some 1) ∧
    (∀ msg, afterServe (ServeError.other msg) = some 1) ∧
    afterServe ServeError.serverClosed = none := by
  refine ⟨?_, fun _ => rfl, rfl⟩
  intro r h
  match r with
  | .serving cfg p => exact absurd rfl (h cfg p)
  | .exitLoadFail => rfl
  | .exitDecodeFail => rfl
  | .exitTranslateFail => rfl
  | .exitValidateFail => rfl
  | .exitProxyFail => rfl

/-- C8 witness: the validation-failure outcome exits with code 1. -/
theorem claim_C8_witness : exitCode MainResult.exitValidateFail = some 1 :=
  claim_C8.1 MainResult.exitValidateFail
    (fun _ _ hc => MainResult.noConfusion hc)

/-- C9: the workspace instruction renderer embeds the literal sentinel
`No files found in workspace` when the `GPTSCRIPT_CONTEXT` listing is
empty, and embeds any non-empty listing verbatim between the fixed head
and tail of the template. -/
theorem claim_C9 :
    renderWorkspaceInstructions "" =
      workspaceInstructionsHead ++ "No files found in workspace" ++
        workspaceInstructionsTail ∧
    ∀ files : String, files ≠ "" →
      renderWorkspaceInstructions files =
        workspaceInstructionsHead ++ files ++ workspaceInstructionsTail := by
  refine ⟨rfl, ?_⟩
  intro files h
  unfold renderWorkspaceInstructions
  rw [if_neg h]

/-- C9 witness: a concrete non-empty listing is embedded verbatim. -/
theorem claim_C9_witness :
    renderWorkspaceInstructions "notes.txt" =
      workspaceInstructionsHead ++ "notes.txt" ++ workspaceInstructionsTail :=
  claim_C9.2 "notes.txt" (by decide)

/-- C10: for every input environment, the derived proxy configuration has
cookie name `obot_access_token`, cookie refresh of exactly one hour, and
empty proxy and metrics bind addresses; none of these constants appear in
the spec. -/
theorem claim_C10 (opts : Options) (secret : List Nat) (base : ProxyOptions) :
    (applyMainConfig opts secret base).cookieName = "obot_access_token" ∧
    (applyMainConfig opts secret base).cookieRefresh = timeHour ∧
    timeHour = 3600 * 1000000000 ∧
    (applyMainConfig opts secret base).serverBindAddress = "" ∧
    (applyMainConfig opts secret base).metricsServerBindAddress = "" := by
  unfold applyMainConfig
  refine ⟨?_, ?_, rfl, ?_, ?_⟩ <;> (split <;> rfl)
